import Mathlib

/-!
Verification of the leapkit request-dispatch core (`core/server`) and the
scaffold generator, as a shallow embedding in Lean 4.

The repository ships `core/server/error.go` and the scaffold generator in
source form; the router, middleware-chain, recoverer, access-logger and
session code are exercised only by `core/server/router_test.go`, so those
components are modelled from the specification (each such definition carries
a doc comment starting with `Modelled from the spec:`).

The embedding models an HTTP response writer as explicit state (status,
committed flag, body, content type, an optional session cookie), the
process-wide side channels (structured log, stderr) as accumulating strings
and lists, and a handler as a state transformer that may additionally report
a panic message.
-/

namespace Leapkit

/-- A structured log entry: severity level and message. -/
structure LogEntry where
  level : String
  msg : String
  deriving Repr, DecidableEq

/-- A session key/value store with a dirty flag, as in §3 of the spec:
values are opaque serializable data (modelled as strings); the dirty flag is
set by any write and is the sole trigger for emitting a cookie. -/
structure SessionData where
  values : List (String × String)
  dirty : Bool
  deriving Repr, DecidableEq

/-- Modelled from the spec: the Session Codec output (§4.6). The real cookie
is a signed/encrypted string; we model it as its decoded payload together
with a MAC over payload and secret, standing for the signature. -/
structure CookieVal where
  payload : List (String × String)
  mac : Nat
  deriving Repr, DecidableEq

/-- State of one HTTP response writer. `wroteHeader` is the committed flag:
once a status has been written it can never change (Go's superfluous
`WriteHeader` is a no-op). -/
structure Response where
  wroteHeader : Bool
  status : Nat
  body : String
  contentType : Option String
  setCookie : Option CookieVal
  deriving Repr, DecidableEq

/-- A fresh response recorder: status defaults to 200, nothing committed. -/
def Response.init : Response :=
  { wroteHeader := false, status := 200, body := "", contentType := none,
    setCookie := none }

/-- Model of `WriteHeader code`: commits the status code unless one is already
committed. -/
def Response.writeHeader (r : Response) (code : Nat) : Response :=
  if r.wroteHeader then r
  else { r with wroteHeader := true, status := code }

/-- Model of `Write s`: commits status 200 if no header was written yet, then appends
`s` to the body. -/
def Response.write (r : Response) (s : String) : Response :=
  let r := r.writeHeader 200
  { r with body := r.body ++ s }

/-- One incoming HTTP request: method, path, and the (already parsed)
session cookie presented by the client, if any. -/
structure Request where
  method : String
  path : String
  cookie : Option CookieVal
  deriving Repr, DecidableEq

/-- The observable effects of handling one request: the response under
construction, the structured log, the stderr stream, an execution trace used
by instrumentation middleware, and the request-scoped session slot. -/
structure Effects where
  resp : Response
  logLines : List LogEntry
  stderr : String
  trace : List String
  sess : Option SessionData
  deriving Repr, DecidableEq

/-- Effects at the start of a request on a fresh recorder. -/
def Effects.init : Effects :=
  { resp := Response.init, logLines := [], stderr := "", trace := [],
    sess := none }

/-- A handler: transforms the effects and optionally reports a panic
(the `Option String` component carries the panic message on abnormal
termination; `none` means normal completion). -/
def Handler : Type :=
  Request → Effects → Effects × Option String

/-- Middleware wraps a handler (spec §3: a pure transformation from the
next handler to the wrapping handler). -/
def Middleware : Type :=
  Handler → Handler

/-- Model of `slog.Error(msg)`: appends an error-severity entry to the structured
log. -/
def slogError (eff : Effects) (msg : String) : Effects :=
  { eff with logLines := eff.logLines ++ [⟨"ERROR", msg⟩] }

/-- Model of `http.Error(w, msg, code)` from net/http: sets the plain-text content
type, writes the header with `code`, then writes `msg` followed by a
newline. -/
def httpError (eff : Effects) (msg : String) (code : Nat) : Effects :=
  let r := { eff.resp with contentType := some "text/plain; charset=utf-8" }
  let r := r.writeHeader code
  let r := r.write (msg ++ "\n")
  { eff with resp := r }

/-- Model of `server.Error(w, err, HTTPStatus)` from `core/server/error.go`: logs the
error message via `slog.Error`, then sends it via `http.Error` with the
given status. -/
def serverError (eff : Effects) (errMsg : String) (httpStatus : Nat) : Effects :=
  httpError (slogError eff errMsg) errMsg httpStatus

/-- The type of an entry in the error-handler table
(`errorHandlerFn` in `core/server/error.go`): receives the request, the
failure, and the response state. -/
def ErrorHandlerFn : Type :=
  Request → String → Effects → Effects

/-- The built-in not-found renderer from `errorHandlerMap` in
`core/server/error.go`: `w.Write([]byte("404 page not found"))` — it only
writes the body, it never sets a status code. -/
def notFoundHandlerFn : ErrorHandlerFn :=
  fun _ _ eff => { eff with resp := eff.resp.write "404 page not found" }

/-- The built-in internal-error renderer from `errorHandlerMap` in
`core/server/error.go`: `slog.Error(err.Error())` then
`http.Error(w, err.Error(), 500)`. -/
def internalErrorHandlerFn : ErrorHandlerFn :=
  fun _ errMsg eff => httpError (slogError eff errMsg) errMsg 500

/-- Model of `errorHandlerMap` from `core/server/error.go`: the default
status-code-keyed table, seeded with the 404 and 500 renderers. -/
def errorHandlerMap : List (Nat × ErrorHandlerFn) :=
  [(404, notFoundHandlerFn), (500, internalErrorHandlerFn)]

/-- Modelled from the spec: `WithErrorHandler` overrides (§4.5, §6); the
router consults its per-instance overrides first and falls back to the
defaults in `errorHandlerMap`. A status with no entry anywhere renders
nothing. -/
def errHandlerFor (overrides : List (Nat × ErrorHandlerFn)) (code : Nat) :
    ErrorHandlerFn :=
  match overrides.lookup code with
  | some h => h
  | none =>
    match errorHandlerMap.lookup code with
    | some h => h
    | none => fun _ _ eff => eff

/-! ## Middleware chain builder -/

/-- Modelled from the spec: the Middleware Chain Builder (§4.2) — given
ordered middleware `[m1, ..., mn]` and leaf `h`, the built handler is
`m1 (m2 (... mn h))`. -/
def buildChain (ms : List Middleware) (h : Handler) : Handler :=
  ms.foldr (fun m acc => m acc) h

/-- Modelled from the spec: `Use(middleware...)` (§4.1) appends the given
middleware, in call order, to the group's current list. -/
def useMw (current added : List Middleware) : List Middleware :=
  current ++ added

/-- An instrumentation middleware in the style of the repository's tests:
records its label in the trace as its pre-logic, then calls the next
handler. -/
def traceMw (label : String) : Middleware :=
  fun next req eff => next req { eff with trace := eff.trace ++ [label] }

/-- A leaf handler that records `"end"` in the trace and completes
normally, mirroring the leaf of the middleware-order test. -/
def traceLeaf : Handler :=
  fun _ eff => ({ eff with trace := eff.trace ++ ["end"] }, none)

/-! ## Recoverer and access logger -/

/-- Modelled from the spec: the diagnostic text `runtime/debug.Stack()`
produces for a panic — a goroutine stack trace mentioning the failure. -/
def debugStack (panicMsg : String) : String :=
  "runtime/debug.Stack()" ++ (" goroutine trace for: " ++ panicMsg ++ "\n")

/-- Modelled from the spec: the Recoverer (§4.3). On normal completion it
is transparent. On a panic it captures the failure; in development mode it
emits the full stack trace to stderr (and suppresses it otherwise); in both
modes it invokes the error-handler table's internal-error entry with the
failure message, and the panic never propagates past this boundary. -/
def recoverer (devMode : Bool) (overrides : List (Nat × ErrorHandlerFn)) :
    Middleware :=
  fun next req eff =>
    match next req eff with
    | (effOut, none) => (effOut, none)
    | (effOut, some panicMsg) =>
      let effOut :=
        if devMode then { effOut with stderr := effOut.stderr ++ debugStack panicMsg }
        else effOut
      (errHandlerFor overrides 500 req panicMsg effOut, none)

/-- The access-log line for one request: carries at minimum method, path
and a `status=<code>` field (spec §4.4, §6). -/
def accessLogLine (req : Request) (status : Nat) : String :=
  ("method=" ++ req.method ++ " path=" ++ req.path ++ " ") ++
    ("status=" ++ toString status)

/-- Modelled from the spec: the Access Logger (§4.4) — observes the status
code actually written (200 when the handler never set one) and emits one
log line per request containing `status=<code>`. -/
def requestLogger : Middleware :=
  fun next req eff =>
    match next req eff with
    | (effOut, p) =>
      ({ effOut with
          logLines := effOut.logLines ++
            [⟨"INFO", accessLogLine req effOut.resp.status⟩] }, p)

/-! ## Route registry and dispatcher -/

/-- Modelled from the spec: the path part of the route-pattern grammar
(§6), in parsed form — a template ending in the exact-match marker `{$}`
matches only its literal prefix; a template ending in a slash matches the
whole sub-tree under it; any other template matches only itself. -/
inductive PathPattern where
  | exact (p : String)
  | subtree (p : String)
  | literal (p : String)

/-- Whether one string is a prefix of another, character-wise. -/
def strIsPrefixOf (p s : String) : Bool :=
  p.data.isPrefixOf s.data

/-- Whether a path pattern matches a concrete request path (spec §3, §6). -/
def patMatches (pat : PathPattern) (path : String) : Bool :=
  match pat with
  | .exact p => path == p
  | .subtree p => strIsPrefixOf p path
  | .literal p => path == p

/-- The specificity of a pattern (spec §4.1: prefer the most specific
match): an exact-end or literal template is more specific than a subtree
template over the same prefix. -/
def PathPattern.specLen : PathPattern → Nat
  | .exact p => p.length + 1
  | .subtree p => p.length
  | .literal p => p.length + 1

/-- A registered route: optional method token, path pattern, handler
(spec §3). A route with no method token acts as a catch-all for every
method under its pattern. -/
structure Route where
  method : Option String
  pattern : PathPattern
  handler : Handler

/-- Whether a route accepts the given method: an unqualified route accepts
every method; a method-qualified route only its own. -/
def methodOk (r : Route) (m : String) : Bool :=
  match r.method with
  | none => true
  | some rm => rm == m

/-- Whether `r1` is a more specific match than `r2`: a more specific
pattern wins; at equal specificity a method-qualified route beats an
unqualified catch-all (spec §4.1 resolution algorithm). -/
def moreSpecific (r1 r2 : Route) : Bool :=
  if r1.pattern.specLen == r2.pattern.specLen then
    r1.method.isSome && !r2.method.isSome
  else
    r2.pattern.specLen < r1.pattern.specLen

/-- Modelled from the spec: route resolution (§4.1) — among the routes
whose method and pattern match, pick the most specific; `none` when nothing
matches. -/
def resolve (routes : List Route) (m path : String) : Option Route :=
  (routes.filter (fun r => methodOk r m && patMatches r.pattern path)).foldl
    (fun acc r =>
      match acc with
      | none => some r
      | some best => some (if moreSpecific r best then r else best))
    none

/-- Modelled from the spec: the Dispatcher (§2, §4.1) — resolves the
request to a route (each route runs under its snapshotted middleware
chain), or dispatches to the not-found entry of the error-handler table. -/
def dispatch (overrides : List (Nat × ErrorHandlerFn)) (routes : List Route) :
    Handler :=
  fun req eff =>
    match resolve routes req.method req.path with
    | some r => r.handler req eff
    | none => (errHandlerFor overrides 404 req "404 page not found" eff, none)

/-- Modelled from the spec: the base middleware stack every request passes
through (§4.2) — the Access Logger outermost, the Recoverer just inside
it, wrapping whatever handler the dispatcher selected. -/
def baseStack (devMode : Bool) (overrides : List (Nat × ErrorHandlerFn))
    (inner : Handler) : Handler :=
  requestLogger (recoverer devMode overrides inner)

/-- Modelled from the spec: the router entry point (§2, §4.2) — the base
stack around the dispatcher; each route's own chain was built at
registration. -/
def serve (devMode : Bool) (overrides : List (Nat × ErrorHandlerFn))
    (routes : List Route) : Handler :=
  baseStack devMode overrides (dispatch overrides routes)

/-! ## Session codec and manager -/

/-- Serialization of session values used by the MAC: key/value pairs joined
with separators, prefixed by the pair count. -/
def serializeVals (vals : List (String × String)) : String :=
  toString vals.length ++ ";" ++
    String.join (vals.map (fun kv => kv.1 ++ "=" ++ kv.2 ++ ";"))

/-- Modelled from the spec: the signing MAC of the Session Codec (§4.6) —
a checksum over the secret and the serialized values, standing for the
HMAC of the real implementation. -/
def macOf (secret : String) (vals : List (String × String)) : Nat :=
  ((secret ++ "|" ++ serializeVals vals).toList).foldl
    (fun acc c => (acc * 31 + c.toNat) % 4294967296) 7

/-- Modelled from the spec: Session Codec encoding (§4.6) — serialize the
values and sign them with the secret into the cookie value. -/
def encodeSession (secret : String) (vals : List (String × String)) :
    CookieVal :=
  { payload := vals, mac := macOf secret vals }

/-- Modelled from the spec: Session Codec decoding (§4.6) — verify the
signature against the secret; on success return the values, on integrity
failure return nothing. -/
def decodeSession (secret : String) (c : CookieVal) :
    Option (List (String × String)) :=
  if c.mac == macOf secret c.payload then some c.payload else none

/-- An empty, clean session. -/
def emptySession : SessionData :=
  { values := [], dirty := false }

/-- Modelled from the spec: session extraction on request entry (§4.6) —
no cookie, or a cookie failing verification, yields a fresh empty session;
a valid cookie yields its decoded values (clean). -/
def sessionLoad (secret : String) (req : Request) : SessionData :=
  match req.cookie with
  | none => emptySession
  | some c =>
    match decodeSession secret c with
    | none => emptySession
    | some vals => { values := vals, dirty := false }

/-- A session write as performed by handlers (`sw.Values[k] = v`): binds
`k` to `v` and sets the dirty flag. -/
def sessionPut (k v : String) (eff : Effects) : Effects :=
  { eff with
    sess := eff.sess.map (fun s => { values := (k, v) :: s.values, dirty := true }) }

/-- Session lookup as performed by handlers (`sw.Values[k]`). -/
def sessionGet (k : String) (eff : Effects) : Option String :=
  eff.sess.bind (fun s => s.values.lookup k)

/-- Modelled from the spec: the Session Manager middleware installed by
`WithSession(secret, cookieName)` (§4.6) — on entry injects the session
extracted from the request cookie into request-scoped state; on completion
re-emits the cookie when and only when the dirty flag is set. -/
def withSessionMw (secret : String) : Middleware :=
  fun next req eff =>
    match next req { eff with sess := some (sessionLoad secret req) } with
    | (effOut, p) =>
      match effOut.sess with
      | some s =>
        if s.dirty then
          ({ effOut with
              resp := { effOut.resp with setCookie := some (encodeSession secret s.values) } }, p)
        else (effOut, p)
      | none => (effOut, p)

/-! ## Group middleware inheritance -/

/-- Modelled from the spec: a registration-time group tree (§3, §4.1).
Each node carries the middleware labels registered directly in it, whether
it called `ResetMiddleware()`, and its child groups. Labels stand for the
middleware themselves; a route registered in a group snapshots the group's
effective stack. -/
inductive GroupTree where
  | node (own : List String) (reset : Bool) (children : List GroupTree)

/-- Modelled from the spec: the effective middleware stack of a group
(§3) — the inherited stack concatenated with the group's own additions,
unless the group reset, which severs inheritance at that point. -/
def effStack (inherited : List String) : GroupTree → List String
  | .node own reset _ => (if reset then [] else inherited) ++ own

mutual

/-- The effective stacks observed by routes registered in a group and in
all its descendants, in registration order (one entry per group). -/
def routeStacks (inherited : List String) : GroupTree → List (List String)
  | .node own reset children =>
    let cur := (if reset then [] else inherited) ++ own
    cur :: routeStacksOf cur children

/-- The effective stacks over a list of sibling groups, given the stack
they inherit. -/
def routeStacksOf (inherited : List String) :
    List GroupTree → List (List String)
  | [] => []
  | g :: gs => routeStacks inherited g ++ routeStacksOf inherited gs

end

/-! ## Response-writer capability forwarding -/

/-- An underlying response object with its optional capabilities: the
flush method and the connection-takeover (hijack) method are present only
when the object's dynamic type supports them. -/
structure UnderlyingRW where
  flushMethod : Option (Response → Response)
  hijackMethod : Option Unit

/-- Modelled from the spec: the status-capturing wrapper the Access Logger
installs around the response (§4.4) — it records the status written and
transparently forwards the optional flush and hijack capabilities of the
underlying object. -/
structure WrappedRW where
  underlying : UnderlyingRW
  capturedStatus : Nat

/-- Modelled from the spec: wrapping an underlying response object (§4.4). -/
def wrapRW (u : UnderlyingRW) : WrappedRW :=
  { underlying := u, capturedStatus := 200 }

/-- The wrapper's flush capability: a downstream type query for a Flusher
succeeds exactly when this is present — it delegates to the underlying
object's method. -/
def WrappedRW.flushMethod (w : WrappedRW) : Option (Response → Response) :=
  w.underlying.flushMethod

/-- The wrapper's hijack capability: a downstream type query for a Hijacker
succeeds exactly when this is present — it delegates to the underlying
object's method. -/
def WrappedRW.hijackMethod (w : WrappedRW) : Option Unit :=
  w.underlying.hijackMethod

/-! ## Scaffold generator (`generate.Action`) -/

/-- The outcome oracle for the filesystem and template operations `Action`
performs, in program order: creating the folder, creating the `.go` file,
executing the action template into it, creating the `.html` file. `true`
means the operation succeeds; a failing operation yields the paired error
message. -/
structure ActionFS where
  mkdirOk : Bool
  createGoOk : Bool
  execOk : Bool
  createHtmlOk : Bool
  deriving Repr, DecidableEq

/-- Model of `filepath.Dir(name)` followed by the generator's `"." → ""` rewrite:
the directory part of `name`, empty when there is none. -/
def folderOf (name : String) : String :=
  match (name.splitOn "/").dropLast with
  | [] => ""
  | parts => String.intercalate "/" parts

/-- Model of `generate.Action(name)` from the scaffold generator, control-flow
faithful to the source: mkdir errors and `.go`-creation errors return
early; the template-execution error is assigned to `err` but then `err` is
overwritten by the result of creating the `.html` file before ever being
checked, so only the `.html` outcome is examined. Returns `Except.error`
with the message the source would return, `Except.ok` on (apparent)
success. -/
def Action (name : String) (fs : ActionFS) : Except String Unit :=
  let folder := folderOf name
  if folder ≠ "" ∧ fs.mkdirOk = false then
    .error "error creating folder"
  else if fs.createGoOk = false then
    .error "create go file failed"
  else
    let _errFromTemplate : Option String :=
      if fs.execOk then none else some "template execution failed"
    let err : Option String :=
      if fs.createHtmlOk then none else some "create html file failed"
    match err with
    | some e => .error e
    | none => .ok ()

/-! ## Substring containment -/

/-- Containment: `pat` occurs as a contiguous substring of `s`. -/
def strContains (s pat : String) : Prop :=
  ∃ a b : String, s = a ++ pat ++ b

/-! ## Theorems -/

/-- Claim C7: for every response writer (not yet committed), error value
and status code, `Error(w, err, status)` first logs the error message at
error severity, then writes a response carrying that status code and the
message as the body, completes normally (no panic), and the Recoverer is
transparent around it (the Recoverer path is not invoked). -/
theorem serverError_logs_then_writes (eff : Effects) (errMsg : String)
    (code : Nat) (hW : eff.resp.wroteHeader = false) :
    (serverError eff errMsg code).logLines = eff.logLines ++ [⟨"ERROR", errMsg⟩] ∧
    (serverError eff errMsg code).resp.status = code ∧
    (serverError eff errMsg code).resp.body = eff.resp.body ++ (errMsg ++ "\n") ∧
    (serverError eff errMsg code).resp.contentType = some "text/plain; charset=utf-8" ∧
    (∀ (devMode : Bool) (ov : List (Nat × ErrorHandlerFn)) (req : Request),
      recoverer devMode ov (fun _ e => (serverError e errMsg code, none)) req eff =
        (serverError eff errMsg code, none)) := by
  refine ⟨?_, ?_, ?_, ?_, ?_⟩
  · simp [serverError, httpError, slogError]
  · simp [serverError, httpError, slogError, Response.write, Response.writeHeader, hW]
  · simp [serverError, httpError, slogError, Response.write, Response.writeHeader, hW]
  · simp [serverError, httpError, slogError, Response.write, Response.writeHeader, hW]
  · intro devMode ov req
    simp [recoverer]

/-- Closed witness for C7 at a concrete fresh writer, message and status. -/
theorem serverError_logs_then_writes_witness :
    Effects.init.resp.wroteHeader = false ∧
    ((serverError Effects.init "boom" 503).logLines =
        Effects.init.logLines ++ [⟨"ERROR", "boom"⟩] ∧
      (serverError Effects.init "boom" 503).resp.status = 503 ∧
      (serverError Effects.init "boom" 503).resp.body =
        Effects.init.resp.body ++ ("boom" ++ "\n") ∧
      (serverError Effects.init "boom" 503).resp.contentType =
        some "text/plain; charset=utf-8" ∧
      (∀ (devMode : Bool) (ov : List (Nat × ErrorHandlerFn)) (req : Request),
        recoverer devMode ov (fun _ e => (serverError e "boom" 503, none)) req
            Effects.init =
          (serverError Effects.init "boom" 503, none))) :=
  ⟨rfl, serverError_logs_then_writes Effects.init "boom" 503 rfl⟩

/-- Claim C9: the built-in not-found renderer writes only the body
`404 page not found` and never sets a status code itself: the resulting
status is whatever was committed before it ran, or the transport default
200 when nothing was. -/
theorem notFound_renderer_never_sets_status (req : Request) (errMsg : String)
    (eff : Effects) :
    (notFoundHandlerFn req errMsg eff).resp.body =
      eff.resp.body ++ "404 page not found" ∧
    (notFoundHandlerFn req errMsg eff).resp.status =
      (if eff.resp.wroteHeader then eff.resp.status else 200) ∧
    (notFoundHandlerFn req errMsg eff).logLines = eff.logLines := by
  refine ⟨?_, ?_, ?_⟩ <;>
    · by_cases h : eff.resp.wroteHeader <;>
        simp [notFoundHandlerFn, Response.write, Response.writeHeader, h]

/-- Claim C8: the response wrapper forwards the optional flush and hijack
capabilities of the underlying response object, so a downstream type query
for either capability on the wrapper succeeds exactly when the underlying
object supports it, and delegates to the same method. -/
theorem wrapper_forwards_capabilities (u : UnderlyingRW) :
    (wrapRW u).flushMethod.isSome = u.flushMethod.isSome ∧
    (wrapRW u).hijackMethod.isSome = u.hijackMethod.isSome ∧
    (wrapRW u).flushMethod = u.flushMethod ∧
    (wrapRW u).hijackMethod = u.hijackMethod :=
  ⟨rfl, rfl, rfl, rfl⟩

/-- Claim C10: `generate.Action` discards the template-execution error —
whenever the folder and `.go` file are created successfully, template
execution into the `.go` file fails, and the `.html` file is created
successfully, `Action` returns success. -/
theorem action_discards_template_error (name : String) (fs : ActionFS)
    (hmk : fs.mkdirOk = true) (hgo : fs.createGoOk = true)
    (_hexec : fs.execOk = false) (hhtml : fs.createHtmlOk = true) :
    Action name fs = .ok () := by
  simp [Action, hmk, hgo, hhtml]

/-- Closed witness for C10: a concrete nested action name whose template
execution fails while all file creations succeed still reports success. -/
theorem action_discards_template_error_witness :
    Action "users/show" ⟨true, true, false, true⟩ = .ok () :=
  action_discards_template_error "users/show" ⟨true, true, false, true⟩
    rfl rfl rfl rfl

/-- Claim C6: with no override registered, the error-handler table falls
back to the built-ins — the internal-error (500) default logs the failure
message at error severity and renders it as the plain-text body of a 500
response (newline-terminated, as the plain-text helper writes it); the
not-found (404) default renders the fixed short text body; and an override
installed at construction replaces the default renderer for its status
code. -/
theorem errorHandler_defaults_and_override :
    (∀ (req : Request) (errMsg : String) (eff : Effects),
      eff.resp.wroteHeader = false →
        (errHandlerFor [] 500 req errMsg eff).resp.status = 500 ∧
        (errHandlerFor [] 500 req errMsg eff).resp.body =
          eff.resp.body ++ (errMsg ++ "\n") ∧
        (errHandlerFor [] 500 req errMsg eff).resp.contentType =
          some "text/plain; charset=utf-8" ∧
        (errHandlerFor [] 500 req errMsg eff).logLines =
          eff.logLines ++ [⟨"ERROR", errMsg⟩]) ∧
    (∀ (req : Request) (errMsg : String) (eff : Effects),
      (errHandlerFor [] 404 req errMsg eff).resp.body =
        eff.resp.body ++ "404 page not found") ∧
    (∀ (code : Nat) (h : ErrorHandlerFn) (req : Request) (errMsg : String)
        (eff : Effects),
      errHandlerFor [(code, h)] code req errMsg eff = h req errMsg eff) := by
  refine ⟨?_, ?_, ?_⟩
  · intro req errMsg eff hW
    refine ⟨?_, ?_, ?_, ?_⟩ <;>
      simp [errHandlerFor, errorHandlerMap, internalErrorHandlerFn, httpError,
        slogError, Response.write, Response.writeHeader, hW, List.lookup]
  · intro req errMsg eff
    by_cases hW : eff.resp.wroteHeader <;>
      simp [errHandlerFor, errorHandlerMap, notFoundHandlerFn,
        Response.write, Response.writeHeader, hW, List.lookup]
  · intro code h req errMsg eff
    simp [errHandlerFor, List.lookup]

/-- Closed witness for C6 at a fresh writer, a concrete failure message,
and a concrete override. -/
theorem errorHandler_defaults_and_override_witness :
    Effects.init.resp.wroteHeader = false ∧
    ((errHandlerFor [] 500 ⟨"GET", "/boom/", none⟩ "index out of range"
        Effects.init).resp.status = 500 ∧
      (errHandlerFor [] 500 ⟨"GET", "/boom/", none⟩ "index out of range"
          Effects.init).resp.body =
        Effects.init.resp.body ++ ("index out of range" ++ "\n") ∧
      (errHandlerFor [] 500 ⟨"GET", "/boom/", none⟩ "index out of range"
          Effects.init).resp.contentType = some "text/plain; charset=utf-8" ∧
      (errHandlerFor [] 500 ⟨"GET", "/boom/", none⟩ "index out of range"
          Effects.init).logLines =
        Effects.init.logLines ++ [⟨"ERROR", "index out of range"⟩]) ∧
    (errHandlerFor [] 404 ⟨"GET", "/not/found/", none⟩ "x"
        Effects.init).resp.body =
      Effects.init.resp.body ++ "404 page not found" ∧
    errHandlerFor [(404, notFoundHandlerFn)] 404 ⟨"GET", "/n", none⟩ "x"
        Effects.init =
      notFoundHandlerFn ⟨"GET", "/n", none⟩ "x" Effects.init :=
  ⟨rfl,
    errorHandler_defaults_and_override.1 ⟨"GET", "/boom/", none⟩
      "index out of range" Effects.init rfl,
    errorHandler_defaults_and_override.2.1 ⟨"GET", "/not/found/", none⟩ "x"
      Effects.init,
    errorHandler_defaults_and_override.2.2 404 notFoundHandlerFn
      ⟨"GET", "/n", none⟩ "x" Effects.init⟩

/-- Claim C3: middleware registered through `Use` across any number of
calls concatenates in call order; the chain built for a route is the
composition `m1 (m2 (... mn h))`; and for instrumented middleware the
observed execution order on a request is exactly `m1, ..., mn` followed by
the leaf handler. -/
theorem middleware_chain_order :
    (∀ (g ms : List Middleware) (h : Handler),
      buildChain (useMw g ms) h = buildChain g (buildChain ms h)) ∧
    (∀ (m : Middleware) (ms : List Middleware) (h : Handler),
      buildChain (m :: ms) h = m (buildChain ms h)) ∧
    (∀ (labels : List String) (req : Request) (eff : Effects),
      buildChain (labels.map traceMw) traceLeaf req eff =
        ({ eff with trace := eff.trace ++ labels ++ ["end"] }, none)) := by
  refine ⟨?_, ?_, ?_⟩
  · intro g ms h
    simp [buildChain, useMw, List.foldr_append]
  · intro m ms h
    rfl
  · intro labels
    induction labels with
    | nil => intro req eff; simp [buildChain, traceLeaf]
    | cons l ls ih =>
      intro req eff
      simp only [List.map_cons, buildChain, List.foldr_cons, traceMw]
      have := ih req { eff with trace := eff.trace ++ [l] }
      simp only [buildChain] at this
      rw [this]
      simp

/-- Claim C5: a group that called `ResetMiddleware()` severs inheritance —
the effective stacks observed by routes in that group and all its
descendants are independent of everything the ancestors contributed — while
any group that did not reset (a parent or sibling) keeps the full inherited
stack followed by its own additions. -/
theorem resetMiddleware_isolation :
    (∀ (own : List String) (children : List GroupTree)
        (inh1 inh2 : List String),
      routeStacks inh1 (.node own true children) =
        routeStacks inh2 (.node own true children)) ∧
    (∀ (own : List String) (children : List GroupTree) (inh : List String),
      effStack inh (.node own false children) = inh ++ own ∧
      routeStacks inh (.node own false children) =
        (inh ++ own) :: routeStacksOf (inh ++ own) children) := by
  constructor
  · intro own children inh1 inh2
    simp [routeStacks]
  · intro own children inh
    exact ⟨by simp [effStack], by simp [routeStacks]⟩

/-- Claim C4: an unqualified catch-all pattern handles a request of any
method; a method-qualified catch-all handles only requests of its own
method (any other method resolves to nothing); and a request nothing
matches is dispatched to the not-found entry of the error-handler table,
whose default body is the fixed text `404 page not found`. -/
theorem catchAll_resolution :
    (∀ (m path : String) (h : Handler), strIsPrefixOf "/" path = true →
      resolve [⟨none, .subtree "/", h⟩] m path = some ⟨none, .subtree "/", h⟩) ∧
    (∀ (path : String) (h : Handler), strIsPrefixOf "/" path = true →
      resolve [⟨some "GET", .subtree "/", h⟩] "GET" path =
        some ⟨some "GET", .subtree "/", h⟩) ∧
    (∀ (m path : String) (h : Handler), m ≠ "GET" →
      resolve [⟨some "GET", .subtree "/", h⟩] m path = none) ∧
    (∀ (routes : List Route) (req : Request) (eff : Effects),
      resolve routes req.method req.path = none →
        (dispatch [] routes req eff).1.resp.body =
          eff.resp.body ++ "404 page not found" ∧
        (dispatch [] routes req eff).2 = none) := by
  refine ⟨?_, ?_, ?_, ?_⟩
  · intro m path h hp
    simp [resolve, methodOk, patMatches, List.filter, hp]
  · intro path h hp
    simp [resolve, methodOk, patMatches, List.filter, hp]
  · intro m path h hm
    have h3 : (("GET" : String) == m) = false := by
      rw [beq_eq_false_iff_ne]
      exact fun e => hm e.symm
    simp [resolve, methodOk, patMatches, List.filter, h3]
  · intro routes req eff hres
    constructor <;>
    · by_cases hW : eff.resp.wroteHeader <;>
        simp [dispatch, hres, errHandlerFor, errorHandlerMap, notFoundHandlerFn,
          Response.write, Response.writeHeader, hW, List.lookup]

/-- Closed witness for C4: a bare catch-all handles a POST to an
unregistered path; a GET-qualified catch-all handles a GET but not a POST;
an empty route table yields the default not-found body. -/
theorem catchAll_resolution_witness :
    (strIsPrefixOf "/" "/notregistered/one" = true ∧
      resolve [⟨none, .subtree "/", traceLeaf⟩] "POST" "/notregistered/one" =
        some ⟨none, .subtree "/", traceLeaf⟩) ∧
    resolve [⟨some "GET", .subtree "/", traceLeaf⟩] "GET" "/enters/the/get" =
      some ⟨some "GET", .subtree "/", traceLeaf⟩ ∧
    resolve [⟨some "GET", .subtree "/", traceLeaf⟩] "POST" "/post/one" = none ∧
    ((dispatch [] [] ⟨"GET", "/notregistered/one", none⟩ Effects.init).1.resp.body =
        Effects.init.resp.body ++ "404 page not found" ∧
      (dispatch [] [] ⟨"GET", "/notregistered/one", none⟩ Effects.init).2 = none) :=
  ⟨⟨by decide, catchAll_resolution.1 "POST" "/notregistered/one" traceLeaf (by decide)⟩,
    catchAll_resolution.2.1 "/enters/the/get" traceLeaf (by decide),
    catchAll_resolution.2.2.1 "POST" "/post/one" traceLeaf (by decide),
    catchAll_resolution.2.2.2 [] ⟨"GET", "/notregistered/one", none⟩ Effects.init
      rfl⟩

/-- A handler that writes one session value, as handler A of the session
test does (`sw.Values["greet"] = "Hello, World!"`). -/
def writeSessionHandler (k v : String) : Handler :=
  fun _ eff => (sessionPut k v eff, none)

/-- A handler that reads one session value and writes it to the response
body, as handler B of the session test does. -/
def readSessionHandler (k : String) : Handler :=
  fun _ eff =>
    (match sessionGet k eff with
      | some v => { eff with resp := eff.resp.write v }
      | none => { eff with resp := eff.resp.write "missing" }, none)

/-- Claim C2: a session value written during one request under
`WithSession` is re-emitted as a signed cookie, that cookie decodes back to
exactly the written values, and a subsequent request presenting it observes
the same value unchanged; a request with no cookie, or a cookie failing
integrity verification, yields a fresh empty session rather than a
failure. -/
theorem session_roundtrip_and_fresh :
    (∀ (secret : String) (vals : List (String × String)),
      decodeSession secret (encodeSession secret vals) = some vals) ∧
    (∀ (secret k v : String) (req1 : Request) (eff1 : Effects),
      (withSessionMw secret (writeSessionHandler k v) req1 eff1).2 = none ∧
      (withSessionMw secret (writeSessionHandler k v) req1 eff1).1.resp.setCookie =
        some (encodeSession secret ((k, v) :: (sessionLoad secret req1).values))) ∧
    (∀ (secret k v : String) (vals : List (String × String)) (req2 : Request)
        (eff2 : Effects),
      req2.cookie = some (encodeSession secret ((k, v) :: vals)) →
        (withSessionMw secret (readSessionHandler k) req2 eff2).2 = none ∧
        (withSessionMw secret (readSessionHandler k) req2 eff2).1.resp.body =
          eff2.resp.body ++ v) ∧
    (∀ (secret : String) (req : Request), req.cookie = none →
      sessionLoad secret req = emptySession) ∧
    (∀ (secret : String) (req : Request) (c : CookieVal),
      req.cookie = some c → decodeSession secret c = none →
        sessionLoad secret req = emptySession) := by
  refine ⟨?_, ?_, ?_, ?_, ?_⟩
  · intro secret vals
    simp [decodeSession, encodeSession]
  · intro secret k v req1 eff1
    constructor <;>
      simp [withSessionMw, writeSessionHandler, sessionPut, encodeSession]
  · intro secret k v vals req2 eff2 hc
    have hload : sessionLoad secret req2 = ⟨(k, v) :: vals, false⟩ := by
      simp [sessionLoad, hc, decodeSession, encodeSession]
    constructor <;>
    · by_cases hW : eff2.resp.wroteHeader <;>
        simp [withSessionMw, readSessionHandler, hload, sessionGet,
          List.lookup, Response.write, Response.writeHeader, hW]
  · intro secret req hc
    simp [sessionLoad, hc]
  · intro secret req c hc hdec
    simp [sessionLoad, hc, hdec]

/-- Closed witness for C2 at a concrete secret, key, value and requests:
writing emits a signed cookie, presenting it returns the value unchanged,
and both the no-cookie and corrupted-cookie cases yield the empty
session. -/
theorem session_roundtrip_and_fresh_witness :
    ((withSessionMw "secret_test" (writeSessionHandler "greet" "Hello, World!")
        ⟨"GET", "/", none⟩ Effects.init).2 = none ∧
      (withSessionMw "secret_test" (writeSessionHandler "greet" "Hello, World!")
          ⟨"GET", "/", none⟩ Effects.init).1.resp.setCookie =
        some (encodeSession "secret_test"
          (("greet", "Hello, World!") ::
            (sessionLoad "secret_test" ⟨"GET", "/", none⟩).values))) ∧
    ((withSessionMw "secret_test" (readSessionHandler "greet")
        ⟨"GET", "/greet/",
          some (encodeSession "secret_test" [("greet", "Hello, World!")])⟩
        Effects.init).2 = none ∧
      (withSessionMw "secret_test" (readSessionHandler "greet")
          ⟨"GET", "/greet/",
            some (encodeSession "secret_test" [("greet", "Hello, World!")])⟩
          Effects.init).1.resp.body =
        Effects.init.resp.body ++ "Hello, World!") ∧
    sessionLoad "secret_test" ⟨"GET", "/", none⟩ = emptySession ∧
    (decodeSession "secret_test" ⟨[("greet", "tampered")], 0⟩ = none ∧
      sessionLoad "secret_test"
          ⟨"GET", "/", some ⟨[("greet", "tampered")], 0⟩⟩ = emptySession) :=
  ⟨session_roundtrip_and_fresh.2.1 "secret_test" "greet" "Hello, World!"
      ⟨"GET", "/", none⟩ Effects.init,
    session_roundtrip_and_fresh.2.2.1 "secret_test" "greet" "Hello, World!" []
      ⟨"GET", "/greet/",
        some (encodeSession "secret_test" [("greet", "Hello, World!")])⟩
      Effects.init rfl,
    session_roundtrip_and_fresh.2.2.2.1 "secret_test" ⟨"GET", "/", none⟩ rfl,
    by decide,
    session_roundtrip_and_fresh.2.2.2.2 "secret_test"
      ⟨"GET", "/", some ⟨[("greet", "tampered")], 0⟩⟩
      ⟨[("greet", "tampered")], 0⟩ rfl (by decide)⟩

/-- The access-log line for a 500 always carries the field
`status=500`. -/
theorem statusField_in_accessLogLine (req : Request) :
    strContains (accessLogLine req 500) "status=500" := by
  refine ⟨"method=" ++ req.method ++ " path=" ++ req.path ++ " ", "", ?_⟩
  have h500 : ("status=" ++ toString (500 : Nat)) = "status=500" := by decide
  simp [accessLogLine, h500]

/-- The stack-trace text always names `runtime/debug.Stack()`. -/
theorem stackMarker_in_debugStack (pmsg : String) :
    strContains (debugStack pmsg) "runtime/debug.Stack()" := by
  refine ⟨"", " goroutine trace for: " ++ pmsg ++ "\n", ?_⟩
  simp [debugStack, String.append_assoc]

/-- Claim C1 (amended): for every handler that panics on a request without
having committed a response status, the router's base stack returns
normally with a 500 response, the access log gains a line containing
`status=500` (after the internal-error entry logged the failure), the
stack trace is appended to stderr exactly when development mode is active,
and the panic never propagates past the Recoverer. -/
theorem panic_recovered_uncommitted (devMode : Bool) (inner : Handler)
    (req : Request) (eff effP : Effects) (pmsg : String)
    (hrun : inner req eff = (effP, some pmsg))
    (hW : effP.resp.wroteHeader = false) :
    (baseStack devMode [] inner req eff).2 = none ∧
    (baseStack devMode [] inner req eff).1.resp.status = 500 ∧
    (baseStack devMode [] inner req eff).1.logLines =
      effP.logLines ++ [⟨"ERROR", pmsg⟩, ⟨"INFO", accessLogLine req 500⟩] ∧
    strContains (accessLogLine req 500) "status=500" ∧
    (baseStack devMode [] inner req eff).1.stderr =
      (if devMode then effP.stderr ++ debugStack pmsg else effP.stderr) ∧
    strContains (debugStack pmsg) "runtime/debug.Stack()" := by
  refine ⟨?_, ?_, ?_, statusField_in_accessLogLine req, ?_,
    stackMarker_in_debugStack pmsg⟩ <;>
    cases devMode <;>
      simp [baseStack, requestLogger, recoverer, hrun, errHandlerFor,
        errorHandlerMap, internalErrorHandlerFn, httpError, slogError,
        Response.write, Response.writeHeader, hW, List.lookup]

/-- Closed witness for C1 (amended): a concrete panicking handler on a
fresh recorder, in production mode. -/
theorem panic_recovered_uncommitted_witness :
    ((fun (_ : Request) (e : Effects) => (e, some "index out of range"))
        ⟨"GET", "/panic/", none⟩ Effects.init =
      (Effects.init, some "index out of range")) ∧
    Effects.init.resp.wroteHeader = false ∧
    ((baseStack false []
        (fun _ e => (e, some "index out of range")) ⟨"GET", "/panic/", none⟩
        Effects.init).2 = none ∧
      (baseStack false []
          (fun _ e => (e, some "index out of range")) ⟨"GET", "/panic/", none⟩
          Effects.init).1.resp.status = 500 ∧
      (baseStack false []
          (fun _ e => (e, some "index out of range")) ⟨"GET", "/panic/", none⟩
          Effects.init).1.logLines =
        Effects.init.logLines ++
          [⟨"ERROR", "index out of range"⟩,
            ⟨"INFO", accessLogLine ⟨"GET", "/panic/", none⟩ 500⟩] ∧
      strContains (accessLogLine ⟨"GET", "/panic/", none⟩ 500) "status=500" ∧
      (baseStack false []
          (fun _ e => (e, some "index out of range")) ⟨"GET", "/panic/", none⟩
          Effects.init).1.stderr =
        (if false then
            Effects.init.stderr ++ debugStack "index out of range"
          else Effects.init.stderr) ∧
      strContains (debugStack "index out of range")
        "runtime/debug.Stack()") :=
  ⟨rfl, rfl,
    panic_recovered_uncommitted false
      (fun _ e => (e, some "index out of range")) ⟨"GET", "/panic/", none⟩
      Effects.init Effects.init "index out of range" rfl rfl⟩

/-- A handler that writes a partial body (committing status 200) and then
panics. -/
def panicAfterWriteHandler : Handler :=
  fun _ eff => ({ eff with resp := eff.resp.write "partial" }, some "boom")

/-- Counterexample to claim C1 as stated: a handler that panics after
having already written part of its response leaves the committed 200
status in place — the entry point does not produce a 500 response, and its
access-log line reads `status=200`. -/
theorem panic_after_commit_keeps_committed_status :
    (serve false []
        [⟨some "GET", .literal "/p", panicAfterWriteHandler⟩]
        ⟨"GET", "/p", none⟩ Effects.init).1.resp.status = 200 ∧
    ¬ ((serve false []
          [⟨some "GET", .literal "/p", panicAfterWriteHandler⟩]
          ⟨"GET", "/p", none⟩ Effects.init).1.resp.status = 500) ∧
    (serve false []
        [⟨some "GET", .literal "/p", panicAfterWriteHandler⟩]
        ⟨"GET", "/p", none⟩ Effects.init).1.logLines =
      [⟨"ERROR", "boom"⟩, ⟨"INFO", accessLogLine ⟨"GET", "/p", none⟩ 200⟩] := by
  refine ⟨?_, ?_, ?_⟩ <;>
    simp [serve, baseStack, requestLogger, recoverer, dispatch, resolve,
      List.filter, methodOk, patMatches, panicAfterWriteHandler,
      errHandlerFor, errorHandlerMap, internalErrorHandlerFn, httpError,
      slogError, Response.write, Response.writeHeader, List.lookup,
      Effects.init, Response.init]

end Leapkit
